import Mathlib

/-!
Verification development for the streaming image-authenticity analysis
pipeline (the analyze route of the spot-a-fake repository).

The TypeScript source is shallowly embedded: JavaScript numbers are
rationals, with the one JavaScript artefact the pipeline can actually
produce, NaN (from the mean of an empty detail list), represented
explicitly by the type JsNum.  Every external call (object detection,
segmentation, the three LLM calls, storage upload, database insert and
update) is a suspension point whose outcome is supplied by an oracle of
type CallResult; the client wrapper functions are embedded faithfully,
including their internal catch-and-degrade fallbacks, so none of them
ever throws past its own boundary.
-/

namespace SpotAFake

/-- Outcome of one external call: the service answered with a payload, or
the call failed (rejected fetch, non-ok status, thrown error) with a
message.  Mirrors the try/catch structure of the source. -/
inductive CallResult (α : Type) where
  | ok (val : α)
  | fail (msg : String)
deriving Repr, DecidableEq

/-- True when the call succeeded. -/
def CallResult.isOk {α : Type} : CallResult α → Bool
  | .ok _ => true
  | .fail _ => false

/-- A JavaScript number as the pipeline produces it: an exact rational, or
NaN (which arises from 0/0 when averaging an empty list). -/
inductive JsNum where
  | num (q : ℚ)
  | nan
deriving Repr, DecidableEq

/-- JavaScript comparison a >= b for a possibly-NaN left operand: every
comparison with NaN is false. -/
def jsGe (a : JsNum) (b : ℚ) : Bool :=
  match a with
  | .num q => decide (b ≤ q)
  | .nan => false

/-- JavaScript Math.round: round half toward positive infinity. -/
def jsRound (q : ℚ) : ℤ := Rat.floor (q + 1/2)

/-- Math.round(q * 10000) / 10000, the four-decimal rounding the source
applies to the per-segment confidence. -/
def round4 (q : ℚ) : ℚ := (jsRound (q * 10000) : ℚ) / 10000

/-- Axis-aligned bounding box in source-image pixel coordinates, the
box format [x1, y1, x2, y2] of the detector. -/
structure Box where
  x1 : ℚ
  y1 : ℚ
  x2 : ℚ
  y2 : ℚ
deriving Repr, DecidableEq

/-- Coordinates {x, y, width, height} attached to a sub-region. -/
structure Coords where
  x : ℚ
  y : ℚ
  width : ℚ
  height : ℚ
deriving Repr, DecidableEq

/-- The coordinates the segmenter attaches to every sub-region of a parent
detection box: x = x1, y = y1, width = x2 - x1, height = y2 - y1. -/
def parentCoords (box : Box) : Coords :=
  ⟨box.x1, box.y1, box.x2 - box.x1, box.y2 - box.y1⟩

/-- One pose keypoint. -/
structure Keypoint where
  x : ℚ
  y : ℚ
deriving Repr, DecidableEq

/-- One detection returned by callYOLOAPI after field mapping. -/
structure Detection where
  confidence : ℚ
  box : Box
  type : String
  classId : ℤ
  pose : Option (List Keypoint)
deriving Repr, DecidableEq

/-- Raw detection as served by the detection service, before callYOLOAPI
renames class_id / pose.keypoints.xy. -/
structure RawDetection where
  confidence : ℚ
  box : Box
  type : String
  class_id : ℤ
  pose : Option (List (ℚ × ℚ))
deriving Repr, DecidableEq

/-- Possible outcomes of the HTTP exchange inside callYOLOAPI: transport
failure, non-ok status, ok status with success flag false, or a
successful payload. -/
inductive YoloServiceResponse where
  | transportError (msg : String)
  | httpError (status : ℕ)
  | notSuccess (message : Option String)
  | ok (detections : List RawDetection) (count : ℕ) (processing_time_ms : Option ℚ)
deriving Repr, DecidableEq

/-- Result of callYOLOAPI: detections plus an error marker instead of a
thrown exception, so the caller can choose a fallback path. -/
structure YoloResult where
  detections : List Detection
  count : ℕ
  processingTime : ℚ
  error : Option String
deriving Repr, DecidableEq

/-- Field mapping applied to each raw detection. -/
def rawToDetection (d : RawDetection) : Detection :=
  ⟨d.confidence, d.box, d.type, d.class_id,
    d.pose.map (fun xy => xy.map (fun p => ⟨p.1, p.2⟩))⟩

/-- callYOLOAPI: every failure mode is caught internally and surfaced as
the error marker; it never throws.  On success the detections are mapped
and processing_time_ms defaults to 0. -/
def callYOLOAPI (resp : YoloServiceResponse) : YoloResult :=
  match resp with
  | .transportError msg => ⟨[], 0, 0, some msg⟩
  | .httpError status => ⟨[], 0, 0, some ("YOLO API returned " ++ toString status)⟩
  | .notSuccess message => ⟨[], 0, 0, some (message.getD "YOLO API analysis failed")⟩
  | .ok detections count processing_time_ms =>
      ⟨detections.map rawToDetection, count, processing_time_ms.getD 0, none⟩

/-- cropImageByBox: pure mock crop of the source, returning a data URL
string derived from the box.  Numeric formatting of the source template
string is abstracted by toString. -/
def cropImageByBox (_imageUrl : String) (box : Box) : String :=
  "data:image/png;base64,cropped_segment_" ++ toString box.x1 ++ "_" ++ toString box.y1
    ++ "_" ++ toString (box.x2 - box.x1) ++ "_" ++ toString (box.y2 - box.y1) ++ "_data..."

/-- One detected item of the segmentation response, carrying its label id
and its percentage-of-parent-image coverage (in percent units, so 40
means 40 percent). -/
structure SegItem where
  label_id : ℤ
  percentage : ℚ
deriving Repr, DecidableEq

/-- Outcome of the segmentation service call: a thrown failure (rejected
fetch or non-ok status), or a JSON payload whose detected_items list may
be absent and whose combined mask is a base64 string. -/
inductive SegResponse where
  | failure (msg : String)
  | success (detected_items : Option (List SegItem)) (combinedMaskBase64 : String)
deriving Repr, DecidableEq

/-- One sub-region handed to the per-segment analysis: an image payload
plus coordinates. -/
structure SubRegion where
  segment : String
  coordinates : Coords
deriving Repr, DecidableEq

/-- The coverage filter of segmentHumanImage: keep clothing and body
parts (label_id above 0, excluding background) with more than 1 percent
coverage. -/
def segPass (item : SegItem) : Bool :=
  decide (0 < item.label_id) && decide (1 < item.percentage)

/-- segmentHumanImage: on a successful service call, one sub-region per
coverage-passing detected item, each carrying the combined mask payload
and the parent box coordinates; if nothing passes (or detected_items is
absent) a single fallback sub-region equal to the whole input crop; on
service failure, the same single fallback sub-region. -/
def segmentHumanImage (croppedHumanImage : String) (originalBox : Box)
    (resp : SegResponse) : List SubRegion :=
  match resp with
  | .success detected_items combinedMaskBase64 =>
      let segments : List SubRegion :=
        match detected_items with
        | some items =>
            (items.filter segPass).map
              (fun _ => ⟨"data:image/png;base64," ++ combinedMaskBase64,
                         parentCoords originalBox⟩)
        | none => []
      if segments.length = 0 then
        [⟨croppedHumanImage, parentCoords originalBox⟩]
      else
        segments
  | .failure _ =>
      [⟨croppedHumanImage, parentCoords originalBox⟩]

/-- Raw luxury-brand analysis payload; absent fields fall back under the
JavaScript or-default applied by the client. -/
structure LuxuryRaw where
  confident : Option ℚ
  brand : Option String
  product : Option String
deriving Repr, DecidableEq

/-- Output shape of analyzeLuxuryImage. -/
structure LuxuryAnalysis where
  confident : ℚ
  brand : Option String
  product : Option String
deriving Repr, DecidableEq

/-- JavaScript truthiness normalisation result.brand or null: an absent
or empty string becomes null. -/
def jsStringOrNull (s : Option String) : Option String :=
  match s with
  | some str => if str = "" then none else some str
  | none => none

/-- analyzeLuxuryImage: on any failure returns zero confidence and null
brand and product; on success applies the or-defaults of the source. -/
def analyzeLuxuryImage (resp : CallResult LuxuryRaw) : LuxuryAnalysis :=
  match resp with
  | .fail _ => ⟨0, none, none⟩
  | .ok r => ⟨r.confident.getD 0, jsStringOrNull r.brand, jsStringOrNull r.product⟩

/-- Raw fake-goods detection payload. -/
structure FakeRaw where
  authentic_probability : Option ℚ
  confidence_level : Option String
  key_findings : Option (List String)
  red_flags : Option (List String)
  authentic_indicators : Option (List String)
  overall_assessment : Option String
  recommendation : Option String
deriving Repr, DecidableEq

/-- Output shape of the fake-goods detection clients. -/
structure FakeGoodsResult where
  authentic_probability : ℚ
  confidence_level : String
  key_findings : List String
  red_flags : List String
  authentic_indicators : List String
  overall_assessment : String
  recommendation : String
deriving Repr, DecidableEq

/-- detectFakeGoods (non-streaming): on failure returns the degraded
result with zeroed probability and an explanatory red flag; on success
applies the or-defaults of the source.  The image and brand-name
arguments are sent to the service and do not affect the response
mapping. -/
def detectFakeGoods (_imageBase64 _brandName : String)
    (resp : CallResult FakeRaw) : FakeGoodsResult :=
  match resp with
  | .fail msg =>
      ⟨0, "low", [], ["Error analyzing authenticity: " ++ msg], [],
        "Analysis failed", "Unable to verify authenticity due to technical error"⟩
  | .ok r =>
      ⟨r.authentic_probability.getD 0, r.confidence_level.getD "low",
        r.key_findings.getD [], r.red_flags.getD [], r.authentic_indicators.getD [],
        r.overall_assessment.getD "", r.recommendation.getD ""⟩

/-- Raw translation payload. -/
structure TranslationRaw where
  original_text : Option String
  translated_text : Option String
  source_language : Option String
  target_language : Option String
deriving Repr, DecidableEq

/-- Output shape of translateText. -/
structure TranslationResult where
  original_text : String
  translated_text : String
  source_language : String
  target_language : String
deriving Repr, DecidableEq

/-- translateText: on failure returns the input text with an explanatory
failure message as the translation; on success applies the or-defaults
of the source. -/
def translateText (text sourceLang targetLang : String)
    (resp : CallResult TranslationRaw) : TranslationResult :=
  match resp with
  | .fail msg =>
      ⟨text, "Translation failed: " ++ msg, sourceLang, targetLang⟩
  | .ok r =>
      ⟨r.original_text.getD text, r.translated_text.getD "",
        r.source_language.getD sourceLang, r.target_language.getD targetLang⟩

/-- The brand name handed to fake-goods detection:
luxuryAnalysis.brand or the placeholder. -/
def brandNameOf (luxuryAnalysis : LuxuryAnalysis) : String :=
  luxuryAnalysis.brand.getD "Unknown Brand"

/-- The structured content of ai_result_text (stored by the source as a
JSON string; embedded here as a structure).  The error and message
fields are only set by the catch path of the analysis unit. -/
structure ComprehensiveResult where
  error : Bool
  message : Option String
  luxury_analysis : LuxuryAnalysis
  authenticity_analysis : FakeGoodsResult
  translation : TranslationResult
deriving Repr, DecidableEq

/-- One analysis_detail-shaped value returned by the per-segment
analysis unit. -/
structure DetailRow where
  analysis_id : String
  user_id : String
  image_url : String
  ai_confidence : ℚ
  ai_result_text : ComprehensiveResult
deriving Repr, DecidableEq

/-- The catch-path result of the analysis unit, produced when the
image-to-base64 conversion throws (the only throwing step): zeroed
confidence and an error-shaped result blob.  The message and red-flag
wording differ between the plain and the streaming variant, so both are
parameters. -/
def errorComprehensiveResult (messageText flagText assessment : String) : ComprehensiveResult :=
  ⟨true, some messageText,
    ⟨0, none, none⟩,
    ⟨0, "low", [], [flagText], [],
      assessment, "Unable to verify authenticity"⟩,
    ⟨"Analysis failed", "分析失败", "English", "Chinese"⟩⟩

/-- Oracle for one run of the non-streaming analysis unit: the outcomes
of its four suspension points (luxury analysis, base64 conversion,
fake-goods call, translation call). -/
structure AIOracle where
  luxury : CallResult LuxuryRaw
  conversion : CallResult String
  fakeGoods : CallResult FakeRaw
  translation : CallResult TranslationRaw
deriving Repr, DecidableEq

/-- processImageAnalysis: the non-streaming per-segment pipeline.  The
three client calls degrade internally and never throw; only the base64
conversion can throw, in which case the outer catch returns the
error-shaped row.  The final confidence is the mean of the luxury
confidence and the authenticity probability, rounded to four decimal
places. -/
def processImageAnalysis (imageUrl analysisId userId : String)
    (o : AIOracle) : DetailRow :=
  let luxuryAnalysis := analyzeLuxuryImage o.luxury
  match o.conversion with
  | .fail msg =>
      ⟨analysisId, userId, imageUrl, 0,
        errorComprehensiveResult ("Analysis failed: " ++ msg)
          ("Error during analysis: " ++ msg)
          "Analysis failed due to technical error"⟩
  | .ok b64 =>
      let imageBase64 := "data:image/jpeg;base64," ++ b64
      let brandName := brandNameOf luxuryAnalysis
      let fakeGoodsAnalysis := detectFakeGoods imageBase64 brandName o.fakeGoods
      let translationResult :=
        translateText fakeGoodsAnalysis.overall_assessment "English" "Chinese" o.translation
      let comprehensiveResult : ComprehensiveResult :=
        ⟨false, none, luxuryAnalysis, fakeGoodsAnalysis, translationResult⟩
      let overallConfidence := (luxuryAnalysis.confident + fakeGoodsAnalysis.authentic_probability) / 2
      ⟨analysisId, userId, imageUrl, round4 overallConfidence, comprehensiveResult⟩

/-- Oracle for one run of the streaming analysis unit.  The streaming
fake-goods call is abstracted to the chunks it delivered and its final
outcome: on success the structured result parsed from the accumulated
text (parseStreamingAnalysisResult, whose text heuristics are not needed
by any claim), on failure the message of the thrown error. -/
structure AIStreamOracle where
  luxury : CallResult LuxuryRaw
  conversion : CallResult String
  fakeChunks : List String
  fakeOutcome : CallResult FakeGoodsResult
  translation : CallResult TranslationRaw

/-- detectFakeGoodsStreaming: forwards each streamed chunk, then on
success returns the parsed analysis and on failure the degraded result
with zeroed probability and an explanatory red flag.  Returns the result
together with the chunks it forwarded. -/
def detectFakeGoodsStreaming (_imageBase64 _brandName : String)
    (chunks : List String) (outcome : CallResult FakeGoodsResult) :
    FakeGoodsResult × List String :=
  match outcome with
  | .ok parsed => (parsed, chunks)
  | .fail msg =>
      (⟨0, "low", [], ["Streaming analysis error: " ++ msg], [],
        "Streaming analysis failed", "Unable to verify authenticity due to streaming error"⟩,
       chunks)

/-- processImageAnalysisStreaming: same pipeline as processImageAnalysis
with onProgress callbacks; returns the detail row together with the step
names passed to onProgress, in emission order. -/
def processImageAnalysisStreaming (imageUrl analysisId userId : String)
    (o : AIStreamOracle) : DetailRow × List String :=
  let luxuryAnalysis := analyzeLuxuryImage o.luxury
  let firstSteps := ["luxury_analysis", "luxury_analysis_complete", "image_conversion"]
  match o.conversion with
  | .fail msg =>
      (⟨analysisId, userId, imageUrl, 0,
         errorComprehensiveResult ("Streaming analysis failed: " ++ msg)
           ("Error during streaming analysis: " ++ msg)
           "Streaming analysis failed due to technical error"⟩,
       firstSteps ++ ["error"])
  | .ok b64 =>
      let imageBase64 := "data:image/jpeg;base64," ++ b64
      let brandName := brandNameOf luxuryAnalysis
      let (fakeGoodsAnalysis, chunks) :=
        detectFakeGoodsStreaming imageBase64 brandName o.fakeChunks o.fakeOutcome
      let translationResult :=
        translateText fakeGoodsAnalysis.overall_assessment "English" "Chinese" o.translation
      let comprehensiveResult : ComprehensiveResult :=
        ⟨false, none, luxuryAnalysis, fakeGoodsAnalysis, translationResult⟩
      let overallConfidence := (luxuryAnalysis.confident + fakeGoodsAnalysis.authentic_probability) / 2
      (⟨analysisId, userId, imageUrl, round4 overallConfidence, comprehensiveResult⟩,
       firstSteps ++ ["image_conversion_complete", "fake_goods_analysis"]
         ++ chunks.map (fun _ => "fake_goods_streaming")
         ++ ["fake_goods_analysis_complete", "translation", "translation_complete",
             "compilation", "compilation_complete"])

/-- Detection metadata copied into a detail record of the orchestrator
(the yoloDetection object of the source). -/
structure YoloMeta where
  confidence : ℚ
  box : Box
  classId : ℤ
  pose : Option (List Keypoint)
  parentDetectionIndex : Option ℕ
  segmentPartIndex : Option ℕ
deriving Repr, DecidableEq

/-- Metadata of one in-memory analysis detail.  segmentIndex is a string
in the source for human segments and a number otherwise; both are
embedded as strings via toString. -/
structure Metadata where
  segmentIndex : String
  coordinates : Coords
  manipulationDetected : Bool
  processingTime : ℚ
  hasError : Bool
  fallbackMode : Bool
  yoloDetection : Option YoloMeta
  aiAnalysisResult : ComprehensiveResult
deriving Repr, DecidableEq

/-- One in-memory analysis detail accumulated by the orchestrator before
the persistence phase. -/
structure AnalysisDetail where
  type : String
  description : String
  confidence : ℚ
  imageData : String
  metadata : Metadata
deriving Repr, DecidableEq

/-- The detail payload of a progress event. -/
structure ProgressDetail where
  id : String
  type : String
  description : String
  confidence : ℚ
  segmentIndex : String
  coordinates : Coords
  manipulationDetected : Bool
deriving Repr, DecidableEq

/-- The three-band verdict of the summary. -/
inductive OverallResult where
  | authentic
  | suspicious
  | likely_fake
deriving Repr, DecidableEq

/-- One wire-level event of the stream; each constructor carries the
structured fields required for that type. -/
inductive Event where
  | start
  | yolo_analysis
  | detections_found (detectionCount : ℕ) (detectionTypes : List String)
  | processing_detection (detectionType : String) (confidence : ℚ) (progress total : ℕ)
  | ai_analysis_step (step : String)
  | yolo_error (error : String)
  | fallback_analysis
  | progress (step total : ℕ) (detail : ProgressDetail)
  | summary_progress
  | summary_complete (overallResult : OverallResult) (confidence : JsNum)
  | error (message errorText : String)
  | complete (totalDetails : ℕ)
deriving Repr, DecidableEq

/-- The persisted analysis_detail row: the inserted columns plus the row
id returned by the insert, with ai_result_text kept structured. -/
structure StoredResultText where
  type : String
  description : String
  confidence : ℚ
  segmentInfo : Metadata
deriving Repr, DecidableEq

/-- One persisted analysis_detail row. -/
structure DetailRecord where
  id : String
  analysis_id : String
  user_id : String
  image_url : String
  ai_confidence : ℚ
  ai_result_text : StoredResultText
deriving Repr, DecidableEq

/-- The summary object computed at the end of a run.  The free-text
summary string of the source (whose only content beyond these fields is
number formatting and the high and low confidence area lists) is not
modelled. -/
structure AISummary where
  overallResult : OverallResult
  confidence : JsNum
  authenticityAssessment : String
deriving Repr, DecidableEq

/-- The running average of generateAISummary: reduce with + over the
detail confidences divided by the length, which in JavaScript is NaN for
an empty list (0/0). -/
def averageConfidenceOf (analysisDetails : List AnalysisDetail) : JsNum :=
  if analysisDetails.length = 0 then .nan
  else .num ((analysisDetails.foldl (fun sum detail => sum + detail.confidence) 0)
              / analysisDetails.length)

/-- The verdict branch of generateAISummary: mean at least 0.85 is
authentic, at least 0.70 is suspicious, anything else (including NaN) is
likely_fake. -/
def classifyConfidence (averageConfidence : JsNum) : OverallResult :=
  if jsGe averageConfidence 0.85 then .authentic
  else if jsGe averageConfidence 0.70 then .suspicious
  else .likely_fake

/-- The assessment text chosen by the same branch as the verdict. -/
def assessmentFor : OverallResult → String
  | .authentic =>
      "High confidence that the image is authentic. All analysis components show consistent patterns typical of genuine content."
  | .suspicious =>
      "Moderate confidence with some areas of concern. The image shows mixed indicators that warrant further investigation."
  | .likely_fake =>
      "Low confidence - significant concerns detected. Multiple analysis components indicate potential manipulation or synthetic generation."

/-- generateAISummary: average the confidences of all accumulated
details, classify, and attach the matching assessment text. -/
def generateAISummary (analysisDetails : List AnalysisDetail) : AISummary :=
  let averageConfidence := averageConfidenceOf analysisDetails
  let overallResult := classifyConfidence averageConfidence
  ⟨overallResult, averageConfidence, assessmentFor overallResult⟩

/-- JavaScript or-default for strings: the empty string is falsy. -/
def jsStringOr (s fallbackStr : String) : String :=
  if s = "" then fallbackStr else s

/-- The in-memory detail built for one human segment part.  Source
template-string number formatting is abstracted by toString. -/
def mkHumanDetail (i j : ℕ) (detection : Detection) (humanSegment : SubRegion)
    (row : DetailRow) : AnalysisDetail :=
  ⟨"human_segment_" ++ toString (i + 1) ++ "_part_" ++ toString (j + 1),
    "Analysis of human " ++ toString (i + 1) ++ " segment part " ++ toString (j + 1)
      ++ " (confidence: " ++ toString (detection.confidence * 100) ++ "%) - "
      ++ jsStringOr row.ai_result_text.authenticity_analysis.overall_assessment "Analysis completed",
    row.ai_confidence,
    humanSegment.segment,
    ⟨toString i ++ "_" ++ toString j,
      humanSegment.coordinates,
      decide (row.ai_result_text.authenticity_analysis.authentic_probability < 0.5),
      1000,
      row.ai_result_text.error,
      false,
      some ⟨detection.confidence, detection.box, detection.classId, detection.pose, some i, some j⟩,
      row.ai_result_text⟩⟩

/-- The in-memory detail built for one non-human detection. -/
def mkNonHumanDetail (i : ℕ) (detection : Detection) (croppedImage : String)
    (row : DetailRow) : AnalysisDetail :=
  ⟨detection.type ++ "_detection_" ++ toString (i + 1),
    "Analysis of detected " ++ detection.type
      ++ " (confidence: " ++ toString (detection.confidence * 100) ++ "%) - "
      ++ jsStringOr row.ai_result_text.authenticity_analysis.overall_assessment "Analysis completed",
    row.ai_confidence,
    croppedImage,
    ⟨toString i,
      ⟨detection.box.x1, detection.box.y1,
        detection.box.x2 - detection.box.x1, detection.box.y2 - detection.box.y1⟩,
      decide (row.ai_result_text.authenticity_analysis.authentic_probability < 0.5),
      1000,
      row.ai_result_text.error,
      false,
      some ⟨detection.confidence, detection.box, detection.classId, detection.pose, none, none⟩,
      row.ai_result_text⟩⟩

/-- Inner loop over the segments of one human detection: analyze each
segment with the streaming unit (forwarding its steps as
ai_analysis_step events) and accumulate one detail per segment.  The
cursor numbers the streaming-unit invocations of the whole run. -/
def analyzeHumanSegments (analysisId userId : String) (ai : ℕ → AIStreamOracle)
    (detection : Detection) (i : ℕ) :
    List (ℕ × SubRegion) → ℕ → List Event × List AnalysisDetail
  | [], _ => ([], [])
  | (j, humanSegment) :: rest, cursor =>
      let pr := processImageAnalysisStreaming humanSegment.segment analysisId userId (ai cursor)
      let detail := mkHumanDetail i j detection humanSegment pr.1
      let restPair := analyzeHumanSegments analysisId userId ai detection i rest (cursor + 1)
      (pr.2.map Event.ai_analysis_step ++ restPair.1, detail :: restPair.2)

/-- Outer loop over the threshold-passing detections, in detector order:
emit the processing_detection event, branch on the person label (segment
then analyze each part) or analyze the crop directly, and accumulate the
details. -/
def analyzeDetections (imageUrl analysisId userId : String)
    (seg : ℕ → SegResponse) (ai : ℕ → AIStreamOracle) (total : ℕ) :
    List (ℕ × Detection) → ℕ → List Event × List AnalysisDetail
  | [], _ => ([], [])
  | (i, detection) :: rest, cursor =>
      let head := Event.processing_detection detection.type detection.confidence (i + 1) total
      if detection.type = "person" then
        let croppedHumanImage := cropImageByBox imageUrl detection.box
        let humanSegments := segmentHumanImage croppedHumanImage detection.box (seg i)
        let segPair :=
          analyzeHumanSegments analysisId userId ai detection i humanSegments.enum cursor
        let restPair :=
          analyzeDetections imageUrl analysisId userId seg ai total rest
            (cursor + humanSegments.length)
        (head :: segPair.1 ++ restPair.1, segPair.2 ++ restPair.2)
      else
        let croppedImage := cropImageByBox imageUrl detection.box
        let pr := processImageAnalysisStreaming croppedImage analysisId userId (ai cursor)
        let detail := mkNonHumanDetail i detection croppedImage pr.1
        let restPair :=
          analyzeDetections imageUrl analysisId userId seg ai total rest (cursor + 1)
        (head :: pr.2.map Event.ai_analysis_step ++ restPair.1, detail :: restPair.2)

/-- Environment of one run: the request identity and the outcomes of
every suspension point, indexed by position (seg by valid-detection
index, ai by streaming-unit invocation order, upload and insert by
detail index). -/
structure RunEnv where
  imageUrl : String
  analysisId : String
  userId : String
  yolo : YoloServiceResponse
  seg : ℕ → SegResponse
  ai : ℕ → AIStreamOracle
  upload : ℕ → CallResult String
  insert : ℕ → CallResult String
  update : CallResult Unit

/-- The detection-and-analysis block of the run (the inner try of the
source).  When the detector returns its error marker, or no detection
passes the 0.62 threshold, the detail list is simply left empty and no
further event is emitted; otherwise the detections_found event precedes
the per-detection blocks.  None of the embedded calls throws, so the
catch branch of the source (the yolo_error and fallback_analysis
events of lines 1301 to 1352) is unreachable from a detector failure. -/
def analysisPhase (env : RunEnv) : List Event × List AnalysisDetail :=
  let yoloResults := callYOLOAPI env.yolo
  if yoloResults.error.isSome then ([], [])
  else
    let validDetections := yoloResults.detections.filter (fun d => decide ((0.62 : ℚ) ≤ d.confidence))
    if validDetections.length = 0 then ([], [])
    else
      let pr :=
        analyzeDetections env.imageUrl env.analysisId env.userId env.seg env.ai
          validDetections.length validDetections.enum 0
      (Event.detections_found validDetections.length (validDetections.map (·.type)) :: pr.1,
       pr.2)

/-- The progress-event payload for one persisted detail. -/
def progressDetailFor (rowId : String) (detail : AnalysisDetail) : ProgressDetail :=
  ⟨rowId, detail.type, detail.description, detail.confidence,
    detail.metadata.segmentIndex, detail.metadata.coordinates,
    detail.metadata.manipulationDetected⟩

/-- The persisted row built from one detail and the urls returned by the
store. -/
def mkDetailRecord (rowId analysisId userId imageUrl : String)
    (detail : AnalysisDetail) : DetailRecord :=
  ⟨rowId, analysisId, userId, imageUrl, detail.confidence,
    ⟨detail.type, detail.description, detail.confidence, detail.metadata⟩⟩

/-- The persistence loop of the run: for each detail in order, upload its
image (on failure emit one error event and continue), insert the row (on
failure emit one error event and continue), and on success emit the
progress event and keep the created row. -/
def persistLoop (analysisId userId : String) (upload insert : ℕ → CallResult String)
    (total : ℕ) : List AnalysisDetail → ℕ → List Event × List DetailRecord
  | [], _ => ([], [])
  | detail :: rest, i =>
      let (evs, rows) := persistLoop analysisId userId upload insert total rest (i + 1)
      match upload i with
      | .fail msg =>
          (Event.error ("Failed to save " ++ detail.type ++ " image")
             ("Failed to upload " ++ detail.type ++ " image: " ++ msg) :: evs, rows)
      | .ok url =>
          match insert i with
          | .fail msg =>
              (Event.error ("Failed to save " ++ detail.type ++ " analysis") msg :: evs, rows)
          | .ok rowId =>
              (Event.progress (i + 1) total (progressDetailFor rowId detail) :: evs,
               mkDetailRecord rowId analysisId userId url detail :: rows)

/-- The details accumulated by the detection-and-analysis block. -/
def analysisDetailsOf (env : RunEnv) : List AnalysisDetail :=
  (analysisPhase env).2

/-- The event emitted between summary_progress and complete: the error
event when the summary update fails, the summary_complete event
otherwise. -/
def summaryTailEv (env : RunEnv) : Event :=
  let aiSummary := generateAISummary (analysisDetailsOf env)
  match env.update with
  | .fail msg => Event.error "Failed to save analysis summary" msg
  | .ok _ => Event.summary_complete aiSummary.overallResult aiSummary.confidence

/-- The full event stream of one run of the analyze route, in emission
order: start, yolo_analysis, the detection-and-analysis events, the
persistence events, summary_progress, the summary tail and the terminal
complete event with the total detail count. -/
def runAnalysisStream (env : RunEnv) : List Event :=
  let analysisEvents := (analysisPhase env).1
  let analysisDetails := (analysisPhase env).2
  let persistEvents :=
    (persistLoop env.analysisId env.userId env.upload env.insert
      analysisDetails.length analysisDetails 0).1
  Event.start :: Event.yolo_analysis :: analysisEvents ++ persistEvents
    ++ [Event.summary_progress, summaryTailEv env, Event.complete analysisDetails.length]

/-- The rows persisted by one run. -/
def runRows (env : RunEnv) : List DetailRecord :=
  (persistLoop env.analysisId env.userId env.upload env.insert
    (analysisDetailsOf env).length (analysisDetailsOf env) 0).2

/-! Projections and predicates over event traces, used to state the
claims. -/

/-- True for a processing_detection event. -/
def isProcessingDetection : Event → Bool
  | .processing_detection _ _ _ _ => true
  | _ => false

/-- True for a progress event. -/
def isProgressEvent : Event → Bool
  | .progress _ _ _ => true
  | _ => false

/-- True for an error event. -/
def isErrorEvent : Event → Bool
  | .error _ _ => true
  | _ => false

/-- True for an ai_analysis_step event. -/
def isAiStepEvent : Event → Bool
  | .ai_analysis_step _ => true
  | _ => false

/-- True for a detections_found event. -/
def isDetectionsFound : Event → Bool
  | .detections_found _ _ => true
  | _ => false

/-- True for a summary_complete event. -/
def isSummaryComplete : Event → Bool
  | .summary_complete _ _ => true
  | _ => false

/-- True for a yolo_error event. -/
def isYoloErrorEvent : Event → Bool
  | .yolo_error _ => true
  | _ => false

/-- True for a fallback_analysis event. -/
def isFallbackEvent : Event → Bool
  | .fallback_analysis => true
  | _ => false

/-- True for the events the detection-and-analysis block may emit:
detections_found, processing_detection and ai_analysis_step. -/
def isAnalysisEvent (e : Event) : Bool :=
  isDetectionsFound e || isProcessingDetection e || isAiStepEvent e

/-- The detail confidences carried by the progress events of a trace, in
emission order. -/
def progressConfidences (evs : List Event) : List ℚ :=
  evs.filterMap fun e =>
    match e with
    | .progress _ _ detail => some detail.confidence
    | _ => none

/-- The aggregate confidences carried by the summary_complete events of
a trace. -/
def summaryConfidences (evs : List Event) : List JsNum :=
  evs.filterMap fun e =>
    match e with
    | .summary_complete _ confidence => some confidence
    | _ => none

/-- Arithmetic mean of a list of rationals, NaN on the empty list (the
claimed aggregate of the emitted progress confidences). -/
def listMean (l : List ℚ) : JsNum :=
  if l.length = 0 then .nan else .num (l.foldl (· + ·) 0 / l.length)

/-- Positions of the events satisfying a predicate. -/
def eventIndexesWhere (p : Event → Bool) (evs : List Event) : List ℕ :=
  evs.enum.filterMap fun ke => if p ke.2 then some ke.1 else none

/-- Consecutive pairs of a list. -/
def consecutivePairs : List ℕ → List (ℕ × ℕ)
  | a :: b :: rest => (a, b) :: consecutivePairs (b :: rest)
  | _ => []

/-- The ordering the claim asserts: between any two successive
processing_detection events some progress event occurs, i.e. a
sub-region is persisted and reported before the orchestrator advances to
the next one. -/
def claimSubRegionOrdering (evs : List Event) : Bool :=
  (consecutivePairs (eventIndexesWhere isProcessingDetection evs)).all fun ab =>
    (eventIndexesWhere isProgressEvent evs).any fun p => decide (ab.1 < p) && decide (p < ab.2)

/-- The single event the persistence loop emits for the detail at index
k: an error event when its upload or its insert fails, the progress
event otherwise. -/
def persistEventFor (upload insert : ℕ → CallResult String) (total k : ℕ)
    (detail : AnalysisDetail) : Event :=
  match upload k with
  | .fail msg =>
      Event.error ("Failed to save " ++ detail.type ++ " image")
        ("Failed to upload " ++ detail.type ++ " image: " ++ msg)
  | .ok _ =>
      match insert k with
      | .fail msg => Event.error ("Failed to save " ++ detail.type ++ " analysis") msg
      | .ok rowId => Event.progress (k + 1) total (progressDetailFor rowId detail)

/-- The row the persistence loop creates for the detail at index k: one
row exactly when both the upload and the insert succeed. -/
def persistRowFor (upload insert : ℕ → CallResult String) (analysisId userId : String)
    (k : ℕ) (detail : AnalysisDetail) : Option DetailRecord :=
  match upload k with
  | .fail _ => none
  | .ok url =>
      match insert k with
      | .fail _ => none
      | .ok rowId => some (mkDetailRecord rowId analysisId userId url detail)

/-! Structural lemmas about the embedded loops, shared by several
claims. -/

/-- The persistence loop, characterised pointwise: it emits exactly one
event per detail (persistEventFor) and creates exactly the rows of the
successful details (persistRowFor), for any starting index. -/
theorem persistLoop_spec (aid uid : String) (up ins : ℕ → CallResult String)
    (total : ℕ) (details : List AnalysisDetail) : ∀ i : ℕ,
    (persistLoop aid uid up ins total details i).1
        = (details.enumFrom i).map (fun kd => persistEventFor up ins total kd.1 kd.2)
    ∧ (persistLoop aid uid up ins total details i).2
        = (details.enumFrom i).filterMap (fun kd => persistRowFor up ins aid uid kd.1 kd.2) := by
  induction details with
  | nil => intro i; simp [persistLoop, List.enumFrom]
  | cons d rest ih =>
      intro i
      obtain ⟨ih1, ih2⟩ := ih (i + 1)
      cases hu : up i with
      | fail msg =>
          simp [persistLoop, persistEventFor, persistRowFor, hu, ih1, ih2, List.enumFrom]
      | ok url =>
          cases hv : ins i with
          | fail msg =>
              simp [persistLoop, persistEventFor, persistRowFor, hu, hv, ih1, ih2, List.enumFrom]
          | ok rid =>
              simp [persistLoop, persistEventFor, persistRowFor, hu, hv, ih1, ih2, List.enumFrom]

/-- Every event of the human-segment loop is an ai_analysis_step. -/
theorem analyzeHumanSegments_all_ai (aid uid : String) (ai : ℕ → AIStreamOracle)
    (det : Detection) (i : ℕ) : ∀ (segs : List (ℕ × SubRegion)) (cursor : ℕ),
    ((analyzeHumanSegments aid uid ai det i segs cursor).1).all isAiStepEvent = true := by
  intro segs
  induction segs with
  | nil => intro c; simp [analyzeHumanSegments]
  | cons s rest ih =>
      intro c
      obtain ⟨j, humanSegment⟩ := s
      rw [List.all_eq_true]
      intro e he
      simp only [analyzeHumanSegments, List.mem_append, List.mem_map] at he
      rcases he with ⟨st, _, rfl⟩ | he
      · rfl
      · have h := ih (c + 1)
        rw [List.all_eq_true] at h
        exact h e he

/-- Every event of the detection loop is a detections_found,
processing_detection or ai_analysis_step event. -/
theorem analyzeDetections_all_analysis (imageUrl aid uid : String)
    (seg : ℕ → SegResponse) (ai : ℕ → AIStreamOracle) (total : ℕ) :
    ∀ (dets : List (ℕ × Detection)) (cursor : ℕ),
    ((analyzeDetections imageUrl aid uid seg ai total dets cursor).1).all isAnalysisEvent = true := by
  intro dets
  induction dets with
  | nil => intro c; simp [analyzeDetections]
  | cons d rest ih =>
      intro c
      obtain ⟨i, detection⟩ := d
      rw [List.all_eq_true]
      intro e he
      by_cases hp : detection.type = "person"
      · simp only [analyzeDetections, hp, if_true, List.mem_cons, List.mem_append] at he
        rcases he with (rfl | he) | he
        · rfl
        · have hai := analyzeHumanSegments_all_ai aid uid ai detection i
            (segmentHumanImage (cropImageByBox imageUrl detection.box) detection.box (seg i)).enum c
          rw [List.all_eq_true] at hai
          have hstep := hai e he
          simp only [isAnalysisEvent, hstep, Bool.or_true]
        · have hrest := ih (c + (segmentHumanImage (cropImageByBox imageUrl detection.box) detection.box (seg i)).length)
          rw [List.all_eq_true] at hrest
          exact hrest e he
      · simp only [analyzeDetections, hp, if_false, List.mem_cons, List.mem_append,
          List.mem_map] at he
        rcases he with (rfl | ⟨st, _, rfl⟩) | he
        · rfl
        · rfl
        · have hrest := ih (c + 1)
          rw [List.all_eq_true] at hrest
          exact hrest e he

/-- Every event of the detection-and-analysis block is a
detections_found, processing_detection or ai_analysis_step event. -/
theorem analysisPhase_all_analysis (env : RunEnv) :
    ((analysisPhase env).1).all isAnalysisEvent = true := by
  rw [List.all_eq_true]
  intro e he
  unfold analysisPhase at he
  by_cases herr : (callYOLOAPI env.yolo).error.isSome
  · simp [herr] at he
  · simp only [herr, if_false, Bool.false_eq_true] at he
    set valid := (callYOLOAPI env.yolo).detections.filter
      (fun d => decide ((0.62 : ℚ) ≤ d.confidence)) with hvalid
    by_cases hz : valid.length = 0
    · simp [hz] at he
    · simp only [hz, if_false, List.mem_cons] at he
      rcases he with rfl | he
      · rfl
      · have h := analyzeDetections_all_analysis env.imageUrl env.analysisId env.userId
          env.seg env.ai valid.length valid.enum 0
        rw [List.all_eq_true] at h
        exact h e he

/-- Every event of the persistence loop is a progress or an error
event. -/
theorem persistLoop_all_progress_error (aid uid : String)
    (up ins : ℕ → CallResult String) (total : ℕ) (details : List AnalysisDetail) (i : ℕ) :
    ((persistLoop aid uid up ins total details i).1).all
      (fun e => isProgressEvent e || isErrorEvent e) = true := by
  have h := (persistLoop_spec aid uid up ins total details i).1
  rw [h, List.all_eq_true]
  intro e he
  rw [List.mem_map] at he
  obtain ⟨⟨k, d⟩, _, rfl⟩ := he
  unfold persistEventFor
  cases up k with
  | fail msg => rfl
  | ok url => cases ins k with
    | fail msg => rfl
    | ok rid => rfl

/-- Analysis-phase events carry no progress confidence. -/
theorem progressConfidences_nil_of_analysis (evs : List Event)
    (h : evs.all isAnalysisEvent = true) : progressConfidences evs = [] := by
  rw [List.all_eq_true] at h
  refine List.filterMap_eq_nil_iff.mpr ?_
  intro e he
  have := h e he
  cases e <;> simp_all [isAnalysisEvent, isDetectionsFound, isProcessingDetection, isAiStepEvent]

/-- Analysis-phase events carry no summary confidence. -/
theorem summaryConfidences_nil_of_analysis (evs : List Event)
    (h : evs.all isAnalysisEvent = true) : summaryConfidences evs = [] := by
  rw [List.all_eq_true] at h
  refine List.filterMap_eq_nil_iff.mpr ?_
  intro e he
  have := h e he
  cases e <;> simp_all [isAnalysisEvent, isDetectionsFound, isProcessingDetection, isAiStepEvent]

/-- Persistence-phase events carry no summary confidence. -/
theorem summaryConfidences_nil_of_persist (evs : List Event)
    (h : evs.all (fun e => isProgressEvent e || isErrorEvent e) = true) :
    summaryConfidences evs = [] := by
  rw [List.all_eq_true] at h
  refine List.filterMap_eq_nil_iff.mpr ?_
  intro e he
  have := h e he
  cases e <;> simp_all [isProgressEvent, isErrorEvent]

/-! Claim C2: event ordering within one run. -/

/-- C2 (amended): within one run the stream decomposes as start,
yolo_analysis, then the detection-and-analysis events (only
detections_found, processing_detection and ai_analysis_step events, so
each block {processing_detection, [ai_analysis_step]*} is emitted before
the next detection starts, but no progress event occurs there), then the
persistence events (only progress and error events, in sub-region
order), and finally the triple summary_progress, summary_complete-or-
error, complete, so the final pair always immediately precedes
complete. -/
theorem analyze_event_ordering (env : RunEnv) :
    runAnalysisStream env
        = Event.start :: Event.yolo_analysis :: (analysisPhase env).1
          ++ (persistLoop env.analysisId env.userId env.upload env.insert
                (analysisDetailsOf env).length (analysisDetailsOf env) 0).1
          ++ [Event.summary_progress, summaryTailEv env,
              Event.complete (analysisDetailsOf env).length]
    ∧ ((analysisPhase env).1).all isAnalysisEvent = true
    ∧ ((persistLoop env.analysisId env.userId env.upload env.insert
          (analysisDetailsOf env).length (analysisDetailsOf env) 0).1).all
          (fun e => isProgressEvent e || isErrorEvent e) = true
    ∧ (isSummaryComplete (summaryTailEv env) || isErrorEvent (summaryTailEv env)) = true := by
  refine ⟨rfl, analysisPhase_all_analysis env, persistLoop_all_progress_error _ _ _ _ _ _ _, ?_⟩
  cases h : env.update <;>
    simp [summaryTailEv, h, isSummaryComplete, isErrorEvent]

/-- A streaming-unit oracle whose every call fails. -/
def failAIStreamOracle : AIStreamOracle :=
  ⟨.fail "down", .fail "down", [], .fail "down", .fail "down"⟩

/-- Run with two non-human detections above threshold, all analysis
calls failing, and persistence succeeding for both details. -/
def envC2cx : RunEnv :=
  ⟨"http://img", "aid", "uid",
    .ok [⟨(8 : ℚ)/10, ⟨0, 0, 10, 10⟩, "bag", 26, none⟩,
         ⟨(7 : ℚ)/10, ⟨0, 0, 5, 5⟩, "shoe", 27, none⟩] 2 none,
    fun _ => .failure "down", fun _ => failAIStreamOracle,
    fun _ => .ok "url", fun i => .ok (toString i), .ok ()⟩

unseal Rat.add Rat.mul Rat.inv Rat.sub Rat.ofScientific in
/-- C2 counterexample: in the run of envC2cx there are two
processing_detection events with no progress event between them — the
orchestrator advances to the next sub-region before the progress event
of the previous one is emitted (all progress events come later, in the
persistence phase), so the claimed per-sub-region ordering of
processing_detection, ai_analysis_step repeated, then progress is
violated. -/
theorem analyze_event_ordering_cx :
    claimSubRegionOrdering (runAnalysisStream envC2cx) = false
    ∧ (eventIndexesWhere isProcessingDetection (runAnalysisStream envC2cx)).length = 2
    ∧ (eventIndexesWhere isProgressEvent (runAnalysisStream envC2cx)).length = 2 := by
  refine ⟨?_, ?_, ?_⟩ <;> decide

/-! Claim C3: the aggregate confidence versus the emitted progress
confidences. -/

/-- The average of generateAISummary equals the list mean of the detail
confidences. -/
theorem averageConfidenceOf_eq_listMean (details : List AnalysisDetail) :
    averageConfidenceOf details = listMean (details.map (·.confidence)) := by
  simp [averageConfidenceOf, listMean, List.foldl_map, List.length_map]

/-- progressConfidences distributes over list append. -/
theorem progressConfidences_append (a b : List Event) :
    progressConfidences (a ++ b) = progressConfidences a ++ progressConfidences b := by
  simp [progressConfidences]

/-- summaryConfidences distributes over list append. -/
theorem summaryConfidences_append (a b : List Event) :
    summaryConfidences (a ++ b) = summaryConfidences a ++ summaryConfidences b := by
  simp [summaryConfidences]

/-- When the upload and the insert of every processed detail succeed,
the persistence loop emits exactly one progress event per detail, in
order, carrying the confidence of that detail. -/
theorem persistLoop_progressConfidences (aid uid : String)
    (up ins : ℕ → CallResult String) (total : ℕ) :
    ∀ (details : List AnalysisDetail) (i : ℕ),
    (∀ k, k < details.length → (up (i + k)).isOk = true ∧ (ins (i + k)).isOk = true) →
    progressConfidences ((persistLoop aid uid up ins total details i).1)
      = details.map (·.confidence) := by
  intro details
  induction details with
  | nil => intro i _; simp [persistLoop, progressConfidences]
  | cons d rest ih =>
      intro i h
      have h0 := h 0 (by simp)
      rw [Nat.add_zero] at h0
      cases hu : up i with
      | fail msg => rw [hu] at h0; simp [CallResult.isOk] at h0
      | ok url =>
          cases hv : ins i with
          | fail msg => rw [hv] at h0; simp [CallResult.isOk] at h0
          | ok rid =>
              have hrest : ∀ k, k < rest.length →
                  (up (i + 1 + k)).isOk = true ∧ (ins (i + 1 + k)).isOk = true := by
                intro k hk
                have := h (k + 1) (by simp [List.length_cons]; omega)
                rwa [show i + (k + 1) = i + 1 + k by omega] at this
              simp only [persistLoop, hu, hv, progressConfidences, List.filterMap_cons,
                List.map_cons]
              rw [← progressConfidences]
              rw [ih (i + 1) hrest]
              simp [progressDetailFor]

/-- The run decomposes as two fixed prefix events, the analysis events,
the persistence events, and the three final events. -/
theorem runAnalysisStream_eq (env : RunEnv) :
    runAnalysisStream env
      = [Event.start, Event.yolo_analysis] ++ (analysisPhase env).1
        ++ (persistLoop env.analysisId env.userId env.upload env.insert
              (analysisDetailsOf env).length (analysisDetailsOf env) 0).1
        ++ [Event.summary_progress, summaryTailEv env,
            Event.complete (analysisDetailsOf env).length] := rfl

/-- The final three events of a run carry no progress confidence. -/
theorem progressConfidences_finalTriple (env : RunEnv) (n : ℕ) :
    progressConfidences
      [Event.summary_progress, summaryTailEv env, Event.complete n] = [] := by
  cases h : env.update <;> simp [summaryTailEv, h, progressConfidences]

/-- C3 (amended): the aggregate confidence equals the arithmetic mean of
the emitted progress confidences whenever every detail persists
successfully (and the summary update succeeds for the summary_complete
event); in general the source averages over all produced details, so
details whose persistence failed still contribute to the aggregate. -/
theorem aggregate_confidence_mean (env : RunEnv)
    (h : ∀ k, k < (analysisDetailsOf env).length →
        (env.upload k).isOk = true ∧ (env.insert k).isOk = true) :
    progressConfidences (runAnalysisStream env) = (analysisDetailsOf env).map (·.confidence)
    ∧ (generateAISummary (analysisDetailsOf env)).confidence
        = listMean (progressConfidences (runAnalysisStream env))
    ∧ (∀ u : Unit, env.update = .ok u →
        summaryConfidences (runAnalysisStream env)
          = [listMean (progressConfidences (runAnalysisStream env))]) := by
  have hpc : progressConfidences (runAnalysisStream env)
      = (analysisDetailsOf env).map (·.confidence) := by
    rw [runAnalysisStream_eq, progressConfidences_append, progressConfidences_append,
      progressConfidences_append]
    rw [progressConfidences_nil_of_analysis _ (analysisPhase_all_analysis env)]
    rw [progressConfidences_finalTriple]
    rw [persistLoop_progressConfidences env.analysisId env.userId env.upload env.insert
      (analysisDetailsOf env).length (analysisDetailsOf env) 0
      (fun k hk => by simpa [Nat.zero_add] using h k hk)]
    simp [progressConfidences]
  refine ⟨hpc, ?_, ?_⟩
  · rw [hpc]
    exact averageConfidenceOf_eq_listMean (analysisDetailsOf env)
  · intro u hu
    rw [hpc, ← averageConfidenceOf_eq_listMean]
    rw [runAnalysisStream_eq, summaryConfidences_append, summaryConfidences_append,
      summaryConfidences_append]
    rw [summaryConfidences_nil_of_analysis _ (analysisPhase_all_analysis env)]
    rw [summaryConfidences_nil_of_persist _
      (persistLoop_all_progress_error env.analysisId env.userId env.upload env.insert
        (analysisDetailsOf env).length (analysisDetailsOf env) 0)]
    simp [summaryConfidences, summaryTailEv, hu, generateAISummary]

/-- A streaming-unit oracle that succeeds with a given luxury confidence
and authenticity probability. -/
def okAIStreamOracle (confident prob : ℚ) : AIStreamOracle :=
  ⟨.ok ⟨some confident, some "Gucci", some "Bag"⟩, .ok "b64", [],
    .ok ⟨prob, "high", [], [], [], "Looks consistent", "Verify with seller"⟩,
    .ok ⟨none, none, none, none⟩⟩

/-- Run with two non-human detections whose details get confidences
9/10 and 1/2; persistence succeeds for both. -/
def envC3w : RunEnv :=
  ⟨"http://img", "aid", "uid",
    .ok [⟨(8 : ℚ)/10, ⟨0, 0, 10, 10⟩, "bag", 26, none⟩,
         ⟨(7 : ℚ)/10, ⟨0, 0, 5, 5⟩, "shoe", 27, none⟩] 2 none,
    fun _ => .failure "down",
    fun c => if c = 0 then okAIStreamOracle 1 ((4 : ℚ)/5) else okAIStreamOracle ((1 : ℚ)/2) ((1 : ℚ)/2),
    fun _ => .ok "url", fun i => .ok (toString i), .ok ()⟩

/-- Witness for C3: in a fully successful run, the emitted progress
confidences are exactly the detail confidences. -/
theorem aggregate_confidence_mean_witness :
    progressConfidences (runAnalysisStream envC3w)
        = (analysisDetailsOf envC3w).map (·.confidence)
    ∧ summaryConfidences (runAnalysisStream envC3w)
        = [listMean (progressConfidences (runAnalysisStream envC3w))] :=
  ⟨(aggregate_confidence_mean envC3w (fun _ _ => ⟨rfl, rfl⟩)).1,
   (aggregate_confidence_mean envC3w (fun _ _ => ⟨rfl, rfl⟩)).2.2 () rfl⟩

/-- Same run as envC3w except that the upload of the second detail
fails. -/
def envC3cx : RunEnv :=
  ⟨"http://img", "aid", "uid",
    .ok [⟨(8 : ℚ)/10, ⟨0, 0, 10, 10⟩, "bag", 26, none⟩,
         ⟨(7 : ℚ)/10, ⟨0, 0, 5, 5⟩, "shoe", 27, none⟩] 2 none,
    fun _ => .failure "down",
    fun c => if c = 0 then okAIStreamOracle 1 ((4 : ℚ)/5) else okAIStreamOracle ((1 : ℚ)/2) ((1 : ℚ)/2),
    fun i => if i = 0 then .ok "u0" else .fail "disk full",
    fun _ => .ok "rid", .ok ()⟩

unseal Rat.add Rat.mul Rat.inv Rat.sub Rat.ofScientific in
/-- C3 counterexample: with one of two details failing to persist, the
single emitted progress confidence is 9/10 while summary_complete
reports 7/10 — the mean over all produced details including the
unpersisted one — so the aggregate does not equal the mean of the
emitted progress confidences. -/
theorem aggregate_confidence_mean_cx :
    progressConfidences (runAnalysisStream envC3cx) = [(9 : ℚ)/10]
    ∧ summaryConfidences (runAnalysisStream envC3cx) = [JsNum.num ((7 : ℚ)/10)]
    ∧ listMean (progressConfidences (runAnalysisStream envC3cx)) ≠ JsNum.num ((7 : ℚ)/10) := by
  refine ⟨?_, ?_, ?_⟩ <;> decide

/-! Claim C4: the zero-detail summary. -/

/-- Run whose single detection falls below the 0.62 confidence
threshold, so zero details are produced. -/
def envC4run : RunEnv :=
  ⟨"http://img", "aid", "uid",
    .ok [⟨(1 : ℚ)/2, ⟨0, 0, 10, 10⟩, "bag", 26, none⟩] 1 none,
    fun _ => .failure "down", fun _ => failAIStreamOracle,
    fun _ => .ok "url", fun _ => .ok "rid", .ok ()⟩

/-- C4 counterexample: with zero details the summary confidence is NaN
(the 0/0 of the empty reduce), not a defined numeric value, so no fixed
deterministic numeric rule for the empty mean exists in the code. -/
theorem zero_detail_summary_cx : (generateAISummary []).confidence = JsNum.nan := rfl

unseal Rat.add Rat.mul Rat.inv Rat.sub Rat.ofScientific in
/-- C4 (amended): with zero details summarization still executes and the
run still reaches summary_complete and complete; the verdict is
deterministically likely_fake (every comparison with NaN is false), but
the reported aggregate confidence is NaN rather than a defined number. -/
theorem zero_detail_summary :
    (generateAISummary []).overallResult = OverallResult.likely_fake
    ∧ (generateAISummary []).confidence = JsNum.nan
    ∧ runAnalysisStream envC4run
        = [Event.start, Event.yolo_analysis, Event.summary_progress,
           Event.summary_complete OverallResult.likely_fake JsNum.nan,
           Event.complete 0] := by
  refine ⟨rfl, rfl, ?_⟩
  decide

/-! Claim C6: the verdict classification bands. -/

/-- C6: the verdict is a pure function of the aggregate confidence with
bands at least 0.85 authentic, in [0.70, 0.85) suspicious, below 0.70
likely_fake, checked in particular at the boundary values 0.849999,
0.85, 0.699999 and 0.70. -/
theorem overallResult_classification :
    (∀ q : ℚ, (0.85 : ℚ) ≤ q → classifyConfidence (.num q) = .authentic)
    ∧ (∀ q : ℚ, (0.70 : ℚ) ≤ q → q < (0.85 : ℚ) → classifyConfidence (.num q) = .suspicious)
    ∧ (∀ q : ℚ, q < (0.70 : ℚ) → classifyConfidence (.num q) = .likely_fake)
    ∧ classifyConfidence (.num 0.849999) = .suspicious
    ∧ classifyConfidence (.num 0.85) = .authentic
    ∧ classifyConfidence (.num 0.699999) = .likely_fake
    ∧ classifyConfidence (.num 0.70) = .suspicious := by
  refine ⟨?_, ?_, ?_, ?_, ?_, ?_, ?_⟩
  · intro q h
    simp [classifyConfidence, jsGe, h]
  · intro q h1 h2
    have : ¬ ((0.85 : ℚ) ≤ q) := by linarith
    simp [classifyConfidence, jsGe, h1, this]
  · intro q h
    have h1 : ¬ ((0.85 : ℚ) ≤ q) := by linarith
    have h2 : ¬ ((0.70 : ℚ) ≤ q) := by linarith
    simp [classifyConfidence, jsGe, h1, h2]
  · have h1 : ¬ ((0.85 : ℚ) ≤ (0.849999 : ℚ)) := by norm_num
    have h2 : (0.70 : ℚ) ≤ (0.849999 : ℚ) := by norm_num
    simp [classifyConfidence, jsGe, h1, h2]
  · have h1 : (0.85 : ℚ) ≤ (0.85 : ℚ) := le_refl _
    simp [classifyConfidence, jsGe, h1]
  · have h1 : ¬ ((0.85 : ℚ) ≤ (0.699999 : ℚ)) := by norm_num
    have h2 : ¬ ((0.70 : ℚ) ≤ (0.699999 : ℚ)) := by norm_num
    simp [classifyConfidence, jsGe, h1, h2]
  · have h1 : ¬ ((0.85 : ℚ) ≤ (0.70 : ℚ)) := by norm_num
    have h2 : (0.70 : ℚ) ≤ (0.70 : ℚ) := le_refl _
    simp [classifyConfidence, jsGe, h1, h2]

/-- Witness for C6 at concrete inputs in each band. -/
theorem overallResult_classification_witness :
    classifyConfidence (.num ((9 : ℚ)/10)) = .authentic
    ∧ classifyConfidence (.num ((3 : ℚ)/4)) = .suspicious
    ∧ classifyConfidence (.num ((1 : ℚ)/2)) = .likely_fake :=
  ⟨overallResult_classification.1 ((9 : ℚ)/10) (by norm_num),
   overallResult_classification.2.1 ((3 : ℚ)/4) (by norm_num) (by norm_num),
   overallResult_classification.2.2.1 ((1 : ℚ)/2) (by norm_num)⟩

/-! Claim C1: the detector error-marker path. -/

/-- Run in which the detection service is unreachable, so callYOLOAPI
returns its error marker. -/
def envC1 : RunEnv :=
  ⟨"http://img", "aid", "uid", .transportError "fetch failed",
    fun _ => .failure "down", fun _ => failAIStreamOracle,
    fun _ => .ok "url", fun _ => .ok "rid", .ok ()⟩

unseal Rat.add Rat.mul Rat.inv Rat.sub Rat.ofScientific in
/-- C1 (code behaviour at the failing input): when the Region Detector
Client returns its error marker, the run emits no yolo_error and no
fallback_analysis event and analyzes nothing — the detail list is left
empty and the run proceeds straight to the summary (whose mean is then
NaN) — although it does still terminate in complete.  The documented
fallback (one yolo_error then one fallback_analysis then a whole-image
analysis) sits in a catch handler that the error marker never reaches,
because callYOLOAPI never throws. -/
theorem detector_error_no_fallback :
    runAnalysisStream envC1
        = [Event.start, Event.yolo_analysis, Event.summary_progress,
           Event.summary_complete OverallResult.likely_fake JsNum.nan,
           Event.complete 0]
    ∧ (runAnalysisStream envC1).countP isYoloErrorEvent = 0
    ∧ (runAnalysisStream envC1).countP isFallbackEvent = 0
    ∧ (callYOLOAPI envC1.yolo).error.isSome = true
    ∧ analysisDetailsOf envC1 = [] := by
  refine ⟨?_, ?_, ?_, rfl, ?_⟩ <;> decide

/-! Claim C5: the segmenter never yields zero sub-regions. -/

/-- C5: segmentHumanImage always yields at least one sub-region: on
service failure it returns the single whole-crop fallback; on success
its output counts exactly the coverage-passing items, with the same
single fallback when nothing passes (also when detected_items is
absent); and an item below one percent coverage never passes the
filter. -/
theorem segmenter_yields_subregion :
    (∀ (crop : String) (box : Box) (resp : SegResponse),
        1 ≤ (segmentHumanImage crop box resp).length)
    ∧ (∀ (crop : String) (box : Box) (msg : String),
        segmentHumanImage crop box (.failure msg) = [⟨crop, parentCoords box⟩])
    ∧ (∀ (crop : String) (box : Box) (items : List SegItem) (mask : String),
        (segmentHumanImage crop box (.success (some items) mask)).length
          = max 1 (items.countP segPass))
    ∧ (∀ item : SegItem, item.percentage < 1 → segPass item = false)
    ∧ (∀ (crop : String) (box : Box) (mask : String),
        segmentHumanImage crop box (.success none mask) = [⟨crop, parentCoords box⟩]) := by
  refine ⟨?_, ?_, ?_, ?_, ?_⟩
  · intro crop box resp
    cases resp with
    | failure msg => simp [segmentHumanImage]
    | success detected_items mask =>
        cases detected_items with
        | none => simp [segmentHumanImage]
        | some items =>
            cases hf : items.filter segPass with
            | nil => simp [segmentHumanImage, hf]
            | cons a l => simp [segmentHumanImage, hf]
  · intro crop box msg
    rfl
  · intro crop box items mask
    have hc : items.countP segPass = (items.filter segPass).length :=
      List.countP_eq_length_filter _ _
    cases hf : items.filter segPass with
    | nil => simp [segmentHumanImage, hf, hc]
    | cons a l =>
        rw [hc, hf]
        simp [segmentHumanImage, hf]
  · intro item h
    have h1 : ¬ (1 < item.percentage) := by linarith
    simp [segPass, h1]
  · intro crop box mask
    rfl

/-- Witness for C5: a half-percent coverage item is dropped by the
filter. -/
theorem segmenter_yields_subregion_witness : segPass ⟨3, (1 : ℚ)/2⟩ = false :=
  segmenter_yields_subregion.2.2.2.1 ⟨3, (1 : ℚ)/2⟩ (by norm_num)

/-! Claim C10: sub-region coordinates and payloads. -/

/-- C10: every sub-region the segmenter produces carries exactly the
parent detection box coordinates (x1, y1, x2 - x1, y2 - y1) — the
coordinates are never narrowed — and when at least one item passes the
coverage filter every produced sub-region carries the same combined-mask
payload. -/
theorem segmenter_coords_and_payload :
    (∀ (crop : String) (box : Box) (resp : SegResponse),
        ∀ sr ∈ segmentHumanImage crop box resp, sr.coordinates = parentCoords box)
    ∧ (∀ (crop : String) (box : Box) (items : List SegItem) (mask : String),
        0 < items.countP segPass →
        ∀ sr ∈ segmentHumanImage crop box (.success (some items) mask),
          sr.segment = "data:image/png;base64," ++ mask) := by
  constructor
  · intro crop box resp sr hsr
    cases resp with
    | failure msg =>
        simp [segmentHumanImage] at hsr
        rw [hsr]
    | success detected_items mask =>
        cases detected_items with
        | none =>
            simp [segmentHumanImage] at hsr
            rw [hsr]
        | some items =>
            cases hf : items.filter segPass with
            | nil =>
                simp [segmentHumanImage, hf] at hsr
                rw [hsr]
            | cons a l =>
                simp [segmentHumanImage, hf] at hsr
                rcases hsr with rfl | ⟨-, rfl⟩ <;> rfl
  · intro crop box items mask hpass sr hsr
    have hc : items.countP segPass = (items.filter segPass).length :=
      List.countP_eq_length_filter _ _
    cases hf : items.filter segPass with
    | nil => rw [hc, hf] at hpass; simp at hpass
    | cons a l =>
        simp [segmentHumanImage, hf] at hsr
        rcases hsr with rfl | ⟨-, rfl⟩ <;> rfl

unseal Rat.sub in
/-- Witness for C10 at a concrete passing item and a concrete failure
fallback. -/
theorem segmenter_coords_and_payload_witness :
    (⟨"c2", parentCoords ⟨0, 0, 2, 2⟩⟩ : SubRegion).coordinates = parentCoords ⟨0, 0, 2, 2⟩
    ∧ (⟨"data:image/png;base64," ++ "M", parentCoords ⟨0, 0, 2, 2⟩⟩ : SubRegion).segment
        = "data:image/png;base64," ++ "M" :=
  ⟨segmenter_coords_and_payload.1 "c2" ⟨0, 0, 2, 2⟩ (.failure "down") _ (by decide),
   segmenter_coords_and_payload.2 "c" ⟨0, 0, 2, 2⟩ [⟨5, 40⟩] "M" (by decide) _ (by decide)⟩

/-! Claim C7: persistence failures are isolated per sub-region. -/

/-- C7: the persistence loop emits exactly one event per sub-region,
determined pointwise by the upload and insert outcomes of that sub-region (an
error event on failure, the progress event on success), creates exactly
one row per sub-region whose storage completed and none for the others,
and processes every sub-region (one event per detail, so a failure never
aborts the rest of the loop). -/
theorem persistence_isolated_per_subregion (aid uid : String)
    (up ins : ℕ → CallResult String) (total : ℕ) (details : List AnalysisDetail) :
    (persistLoop aid uid up ins total details 0).1
        = details.enum.map (fun kd => persistEventFor up ins total kd.1 kd.2)
    ∧ (persistLoop aid uid up ins total details 0).2
        = details.enum.filterMap (fun kd => persistRowFor up ins aid uid kd.1 kd.2)
    ∧ (persistLoop aid uid up ins total details 0).1.length = details.length := by
  have h := persistLoop_spec aid uid up ins total details 0
  refine ⟨?_, ?_, ?_⟩
  · rw [h.1]; rfl
  · rw [h.2]; rfl
  · rw [h.1]
    simp [List.enumFrom_length]

/-! Claim C8: the Segment Analysis Unit never aborts. -/

/-- C8 (amended): the unit always returns a well-formed row for the
requested analysis and user.  A missing brand name degrades to the
placeholder Unknown Brand; a failing brand identification zeroes only
the brand confidence; a failing authenticity scorer zeroes the
probability and explains the failure in the red flags; a failing
translation records an explanatory failure message in the translated
text (without touching the probability); a failing image conversion
yields the zero-confidence error row. -/
theorem analysis_unit_degrades (imageUrl analysisId userId : String) (o : AIOracle) :
    ((processImageAnalysis imageUrl analysisId userId o).analysis_id = analysisId
      ∧ (processImageAnalysis imageUrl analysisId userId o).user_id = userId
      ∧ (processImageAnalysis imageUrl analysisId userId o).image_url = imageUrl)
    ∧ ((analyzeLuxuryImage o.luxury).brand = none →
        brandNameOf (analyzeLuxuryImage o.luxury) = "Unknown Brand")
    ∧ (∀ msg, o.luxury = .fail msg →
        (analyzeLuxuryImage o.luxury).confident = 0
        ∧ (analyzeLuxuryImage o.luxury).brand = none)
    ∧ (∀ b64 msg, o.conversion = .ok b64 → o.fakeGoods = .fail msg →
        (processImageAnalysis imageUrl analysisId userId o).ai_result_text.authenticity_analysis.authentic_probability = 0
        ∧ (processImageAnalysis imageUrl analysisId userId o).ai_result_text.authenticity_analysis.red_flags
            = ["Error analyzing authenticity: " ++ msg])
    ∧ (∀ b64 msg, o.conversion = .ok b64 → o.translation = .fail msg →
        (processImageAnalysis imageUrl analysisId userId o).ai_result_text.translation.translated_text
          = "Translation failed: " ++ msg)
    ∧ (∀ msg, o.conversion = .fail msg →
        (processImageAnalysis imageUrl analysisId userId o).ai_confidence = 0
        ∧ (processImageAnalysis imageUrl analysisId userId o).ai_result_text.error = true) := by
  refine ⟨?_, ?_, ?_, ?_, ?_, ?_⟩
  · cases hc : o.conversion <;> simp [processImageAnalysis, hc]
  · intro h
    simp [brandNameOf, h]
  · intro msg h
    simp [analyzeLuxuryImage, h]
  · intro b64 msg hc hf
    simp [processImageAnalysis, hc, detectFakeGoods, hf]
  · intro b64 msg hc ht
    simp [processImageAnalysis, hc, translateText, ht]
  · intro msg hc
    simp [processImageAnalysis, hc, errorComprehensiveResult]

/-- Unit oracle whose three client calls all fail while the image
conversion succeeds. -/
def oW8 : AIOracle :=
  ⟨.fail "luxury down", .ok "b64", .fail "scorer down", .fail "translator down"⟩

/-- Witness for C8: all three clients failing still yields the degraded
results of the source. -/
theorem analysis_unit_degrades_witness :
    brandNameOf (analyzeLuxuryImage oW8.luxury) = "Unknown Brand"
    ∧ (processImageAnalysis "i" "a" "u" oW8).ai_result_text.authenticity_analysis.authentic_probability = 0
    ∧ (processImageAnalysis "i" "a" "u" oW8).ai_result_text.translation.translated_text
        = "Translation failed: translator down" :=
  ⟨(analysis_unit_degrades "i" "a" "u" oW8).2.1 rfl,
   ((analysis_unit_degrades "i" "a" "u" oW8).2.2.2.1 "b64" "scorer down" rfl rfl).1,
   (analysis_unit_degrades "i" "a" "u" oW8).2.2.2.2.1 "b64" "translator down" rfl rfl⟩

/-- Unit oracle in which only the translation fails while the scorer
returns probability 4/5. -/
def oC8cx : AIOracle :=
  ⟨.ok ⟨some ((9 : ℚ)/10), some "Gucci", some "Bag"⟩, .ok "b64",
    .ok ⟨some ((4 : ℚ)/5), some "high", some [], some [], some [], some "Looks genuine", some "Buy"⟩,
    .fail "timeout"⟩

unseal Rat.add Rat.mul Rat.inv Rat.sub Rat.ofScientific in
/-- C8 counterexample: when only the translation sub-call fails the unit
result keeps the scorer probability 4/5 — it is not zeroed — and its
findings lists stay empty, with no explanatory message there, so the
claimed any-sub-call-failure shape (zeroed probability, message in the
findings) does not hold. -/
theorem analysis_unit_degrades_cx :
    oC8cx.translation = CallResult.fail "timeout"
    ∧ (processImageAnalysis "i" "a" "u" oC8cx).ai_result_text.authenticity_analysis.authentic_probability = (4 : ℚ)/5
    ∧ ¬ ((4 : ℚ)/5 = 0)
    ∧ (processImageAnalysis "i" "a" "u" oC8cx).ai_result_text.authenticity_analysis.red_flags = []
    ∧ (processImageAnalysis "i" "a" "u" oC8cx).ai_result_text.authenticity_analysis.key_findings = [] := by
  refine ⟨rfl, ?_, ?_, ?_, ?_⟩ <;> decide

/-! Claim C9: the unit confidence is the rounded mean. -/

/-- C9 (amended): whenever the image conversion succeeds, the unit
confidence equals the arithmetic mean of the brand-identification
confidence and the authenticity probability rounded to four decimal
places (Math.round of mean times 10000, divided by 10000) — for both the
plain and the streaming unit. -/
theorem unit_confidence_rounded_mean :
    (∀ (imageUrl analysisId userId b64 : String) (o : AIOracle), o.conversion = .ok b64 →
        (processImageAnalysis imageUrl analysisId userId o).ai_confidence
          = round4 (((analyzeLuxuryImage o.luxury).confident
              + (detectFakeGoods ("data:image/jpeg;base64," ++ b64)
                  (brandNameOf (analyzeLuxuryImage o.luxury)) o.fakeGoods).authentic_probability) / 2))
    ∧ (∀ (imageUrl analysisId userId b64 : String) (so : AIStreamOracle), so.conversion = .ok b64 →
        (processImageAnalysisStreaming imageUrl analysisId userId so).1.ai_confidence
          = round4 (((analyzeLuxuryImage so.luxury).confident
              + (detectFakeGoodsStreaming ("data:image/jpeg;base64," ++ b64)
                  (brandNameOf (analyzeLuxuryImage so.luxury)) so.fakeChunks so.fakeOutcome).1.authentic_probability) / 2)) := by
  constructor
  · intro imageUrl analysisId userId b64 o hc
    simp [processImageAnalysis, hc]
  · intro imageUrl analysisId userId b64 so hc
    simp [processImageAnalysisStreaming, hc]

/-- Unit oracle with brand confidence 1/2 and probability 1/2. -/
def oW9 : AIOracle :=
  ⟨.ok ⟨some ((1 : ℚ)/2), some "LV", none⟩, .ok "bb",
    .ok ⟨some ((1 : ℚ)/2), none, none, none, none, none, none⟩,
    .ok ⟨none, none, none, none⟩⟩

/-- Witness for C9 at a concrete successful conversion. -/
theorem unit_confidence_rounded_mean_witness :
    (processImageAnalysis "i" "a" "u" oW9).ai_confidence
      = round4 (((analyzeLuxuryImage oW9.luxury).confident
          + (detectFakeGoods ("data:image/jpeg;base64," ++ "bb")
              (brandNameOf (analyzeLuxuryImage oW9.luxury)) oW9.fakeGoods).authentic_probability) / 2) :=
  unit_confidence_rounded_mean.1 "i" "a" "u" "bb" oW9 rfl

/-- Unit oracle with brand confidence 1/100000 and probability 0, whose
mean 1/200000 rounds to 0 at four decimals. -/
def oC9cx : AIOracle :=
  ⟨.ok ⟨some ((1 : ℚ)/100000), none, none⟩, .ok "b",
    .ok ⟨some 0, none, none, none, none, none, none⟩,
    .ok ⟨none, none, none, none⟩⟩

unseal Rat.add Rat.mul Rat.inv Rat.sub Rat.ofScientific in
/-- C9 counterexample: with brand confidence 1/100000 and probability 0
the stored confidence is 0, while the exact arithmetic mean is 1/200000,
so the stored confidence does not equal the unrounded mean. -/
theorem unit_confidence_rounded_mean_cx :
    (analyzeLuxuryImage oC9cx.luxury).confident = (1 : ℚ)/100000
    ∧ (detectFakeGoods ("data:image/jpeg;base64," ++ "b")
        (brandNameOf (analyzeLuxuryImage oC9cx.luxury)) oC9cx.fakeGoods).authentic_probability = 0
    ∧ (processImageAnalysis "i" "a" "u" oC9cx).ai_confidence = 0
    ∧ (processImageAnalysis "i" "a" "u" oC9cx).ai_confidence
        ≠ (((1 : ℚ)/100000) + 0) / 2 := by
  refine ⟨?_, ?_, ?_, ?_⟩ <;> decide

end SpotAFake
